import Mathlib

/-!
Verification of the project discovery and status-reconciliation engine of a
local developer-productivity dashboard.

The Lean definitions below are a shallow embedding of the Python sources:

* `src/utils/time_utils.py`        -- `get_relative_time`
* `src/utils/command_runner.py`    -- `run_command` (modelled as data: `CmdResult`)
* `src/services/git_service.py`    -- porcelain status-line parsing
  (`GitService.add_files`, `GitService.commit_changes`)
* `src/services/project_scanner.py` -- classification tables, `check_venv_status`,
  `get_git_status`, `analyze_project_fast`, `scan_projects`

Filesystem and subprocess effects are modelled as explicit data: each
fallible operation (stat, iterdir, mkdir, file write) is represented by an
`Except String` value carried by the world/entry structures, where
`Except.error` stands for the operation raising an exception.  Wall-clock
timeout checks (`datetime.now()` comparisons) are modelled as never
exhausted; none of the verified claims concerns the timeout paths.
-/

namespace Dashboard

/-! ## Time utilities (`src/utils/time_utils.py`) -/

/-- Lower bound of the timestamps `datetime.fromtimestamp` accepts
(the start of year 1); outside this range the conversion raises and
`get_relative_time` answers `"Unknown"`. -/
def MIN_TS : Int := -62135596800

/-- Upper bound of the timestamps `datetime.fromtimestamp` accepts
(the end of year 9999). -/
def MAX_TS : Int := 253402300799

/-- Abbreviated English month name, as produced by `strftime("%b")`. -/
def monthAbbrev (m : Nat) : String :=
  ["Jan", "Feb", "Mar", "Apr", "May", "Jun",
   "Jul", "Aug", "Sep", "Oct", "Nov", "Dec"].getD (m - 1) "Jan"

/-- Convert a count of days since the Unix epoch to a Gregorian calendar
(month, day) pair (civil-from-days algorithm). -/
def civilFromDays (z0 : Int) : Nat × Nat :=
  let z := z0 + 719468
  let doe := (z.emod 146097).toNat
  let yoe := (doe - doe / 1460 + doe / 36524 - doe / 146096) / 365
  let doy := doe - (365 * yoe + yoe / 4 - yoe / 100)
  let mp := (5 * doy + 2) / 153
  let d := doy - (153 * mp + 2) / 5 + 1
  let m := if mp < 10 then mp + 3 else mp - 9
  (m, d)

/-- Rendering of `dt.strftime("%b %d")`: abbreviated month, space,
zero-padded day of month. -/
def fmtMonthDay (ts : Int) : String :=
  let days := ts.ediv 86400
  let md := civilFromDays days
  let dd := if md.2 < 10 then "0" ++ toString md.2 else toString md.2
  monthAbbrev md.1 ++ " " ++ dd

/-- Branch structure of `get_relative_time` after a successful
`datetime.fromtimestamp` conversion.  The Python `timedelta`
normalisation `diff.days` / `diff.seconds` is floor division and
nonnegative remainder by 86400 (for a positive divisor `Int.ediv` and
`Int.emod` are exactly these). -/
def relTimeCore (timestamp now : Int) : String :=
  let total := now - timestamp
  let days := total.ediv 86400
  let secs := total.emod 86400
  if 7 < days then fmtMonthDay timestamp
  else if 0 < days then
    let suf := if days = 1 then "" else "s"
    toString days ++ " day" ++ suf ++ " ago"
  else if 3600 < secs then
    let hours := secs.ediv 3600
    let suf := if hours = 1 then "" else "s"
    toString hours ++ " hour" ++ suf ++ " ago"
  else if 60 < secs then
    let minutes := secs.ediv 60
    let suf := if minutes = 1 then "" else "s"
    toString minutes ++ " minute" ++ suf ++ " ago"
  else "Just now"

/-- Embedding of `get_relative_time` (src/utils/time_utils.py, lines
12-41).  `timestamp` and `now` are Unix timestamps in seconds; a
timestamp `datetime.fromtimestamp` cannot represent raises, which the
surrounding `try` turns into `"Unknown"`. -/
def get_relative_time (timestamp now : Int) : String :=
  if timestamp < MIN_TS ∨ MAX_TS < timestamp then "Unknown"
  else relTimeCore timestamp now

/-! ## Porcelain status-line parsing (`src/services/git_service.py`) -/

/-- Boolean prefix test on character lists, modelling Python
`str.startswith`. -/
def prefixB : List Char → List Char → Bool
  | [], _ => true
  | _ :: _, [] => false
  | a :: as, b :: bs => a == b && prefixB as bs

/-- Boolean substring test on character lists, modelling Python `in` on
strings. -/
def infixB (sub : List Char) : List Char → Bool
  | [] => sub.isEmpty
  | b :: bs => prefixB sub (b :: bs) || infixB sub bs

/-- Python `sub in s` for strings. -/
def strContains (sub s : String) : Bool :=
  infixB sub.data s.data

/-- Python `str.startswith` on strings. -/
def pyStartsWith (s p : String) : Bool :=
  prefixB p.data s.data

/-- Python `str.lower` (ASCII case folding suffices for the constants the
scanner compares against). -/
def pyToLower (s : String) : String :=
  String.mk (s.data.map Char.toLower)

/-- Whitespace recognised by Python `str.strip` (ASCII subset). -/
def isWS (c : Char) : Bool :=
  c == ' ' || c == '\t' || c == '\n' || c == '\r'

/-- Python `str.strip`. -/
def pyStrip (s : String) : String :=
  String.mk (((s.data.dropWhile isWS).reverse.dropWhile isWS).reverse)

/-- Split a character list at newline characters, keeping empty pieces,
as Python `str.split("\n")` does. -/
def splitNl : List Char → List (List Char)
  | [] => [[]]
  | c :: rest =>
    let r := splitNl rest
    if c = '\n' then [] :: r
    else
      match r with
      | [] => [[c]]
      | h :: t => (c :: h) :: t

/-- Python `s.split("\n")` on a string. -/
def pySplitLines (s : String) : List String :=
  (splitNl s.data).map String.mk

/-- Evidence of staged changes in one porcelain status line
(GitService.commit_changes, lines 101-106): the line has at least two
characters and its first character is one of A, M, D, R, C. -/
def lineStaged (l : String) : Bool :=
  match l.data with
  | c0 :: _ :: _ => ['A', 'M', 'D', 'R', 'C'].contains c0
  | _ => false

/-- Evidence of unstaged changes in one porcelain status line
(GitService.add_files, lines 58-63): the line starts with "??", or has at
least two characters and its second character is M or D. -/
def lineUnstaged (l : String) : Bool :=
  prefixB "??".data l.data ||
  (match l.data with
   | _ :: c1 :: _ => ['M', 'D'].contains c1
   | _ => false)

/-- Unstaged-change detection over a whole porcelain output
(GitService.add_files): when the output is non-empty, split it into lines
and look for a line giving evidence of unstaged changes. -/
def hasUnstagedOut (s : String) : Bool :=
  if s == "" then false
  else (pySplitLines (pyStrip s)).any lineUnstaged

/-- Staged-change detection over a whole porcelain output
(GitService.commit_changes). -/
def hasStagedOut (s : String) : Bool :=
  if s == "" then false
  else (pySplitLines (pyStrip s)).any lineStaged

/-! ## Shell command results and per-project worlds -/

/-- Result of `run_command` (src/utils/command_runner.py): success flag and
stripped stdout.  `run_command` itself never raises; failures are data. -/
structure CmdResult where
  success : Bool
  stdout : String
deriving DecidableEq

/-- Observable git facts for one project directory: whether `.git` exists
and the results of the four read-only queries issued by `get_git_status`. -/
structure GitWorld where
  dotGitExists : Bool
  branchCmd : CmdResult
  statusCmd : CmdResult
  remoteCmd : CmdResult
  logCmd : CmdResult
deriving DecidableEq

/-- Observable virtual-environment facts for one project directory, feeding
`check_venv_status`: existence of `venv` and `venv/bin/activate`, the
process `VIRTUAL_ENV` variable, and the absolute venv path used for the
containment test. -/
structure VenvWorld where
  venvDirExists : Bool
  activateExists : Bool
  virtualEnv : Option String
  venvAbsPath : String
deriving DecidableEq

/-- The venv-status dictionary built by `check_venv_status`
(src/services/project_scanner.py, lines 39-59).  Standalone-file records
carry a two-key placeholder without the `path` key, modelled as
`path = none`. -/
structure VenvStatus where
  exists_ : Bool
  active : Bool
  path : Option String
deriving DecidableEq

/-- Embedding of `check_venv_status`: `exists` needs both the `venv`
directory and its activation script; `active` additionally needs the
process `VIRTUAL_ENV` to be non-empty and to contain the absolute venv
path as a substring. -/
def check_venv_status (projectPath : String) (w : VenvWorld) : VenvStatus :=
  let ex := w.venvDirExists && w.activateExists
  let active :=
    if ex then
      match w.virtualEnv with
      | some cur => cur != "" && strContains w.venvAbsPath cur
      | none => false
    else false
  ⟨ex, active, some (projectPath ++ "/venv")⟩

/-- The dictionary returned by `get_git_status`
(src/services/project_scanner.py, lines 62-97): either the single-key
`{hasGit: False}` or the full record. -/
inductive GitStatus
  | noGit
  | repo (branch : String) (hasChanges hasRemote : Bool) (lastCommit : String)
deriving DecidableEq

/-- The `hasChanges` value carried by a `GitStatus` (false for `noGit`). -/
def gitHasChanges : GitStatus → Bool
  | .noGit => false
  | .repo _ hc _ _ => hc

/-- Embedding of `get_git_status`: each failed query degrades its field to
a default (`"main"`, `false`, `""`); `hasChanges` is the bare truthiness of
the porcelain stdout. -/
def get_git_status (w : GitWorld) : GitStatus :=
  if w.dotGitExists then
    let branch := if w.branchCmd.success then w.branchCmd.stdout else "main"
    let hasChanges := if w.statusCmd.success then w.statusCmd.stdout != "" else false
    let hasRemote := if w.remoteCmd.success then w.remoteCmd.stdout != "" else false
    let lastCommit := if w.logCmd.success then w.logCmd.stdout else ""
    .repo branch hasChanges hasRemote lastCommit
  else .noGit

/-! ## File classification (`src/services/project_scanner.py`, lines 12-36) -/

/-- The `RELEVANT_EXTENSIONS` constant. -/
def RELEVANT_EXTENSIONS : List String :=
  [".py", ".pyx", ".pyi",
   ".js", ".ts", ".jsx", ".tsx",
   ".json", ".yaml", ".yml", ".toml", ".ini", ".cfg",
   ".md", ".txt", ".rst",
   ".sh", ".bat", ".ps1",
   ".sql", ".html", ".css",
   ".requirements", ".lock"]

/-- The `IMPORTANT_FILES` constant, verbatim from the source including its
letter cases. -/
def IMPORTANT_FILES : List String :=
  ["requirements.txt", "pyproject.toml", "setup.py", "setup.cfg",
   "Pipfile", "Pipfile.lock", "poetry.lock", "Dockerfile",
   "makefile", "Makefile", "README", "LICENSE", "CHANGELOG"]

/-- The `SKIP_DIRS` constant. -/
def SKIP_DIRS : List String :=
  ["__pycache__", ".git", ".svn", ".hg", "node_modules",
   ".pytest_cache", ".mypy_cache", ".tox", "venv", ".venv",
   "env", ".env", "build", "dist", ".eggs", "*.egg-info",
   ".idea", ".vscode", ".DS_Store", "logs", "tmp", "temp"]

/-- Python `pathlib.PurePath.suffix`: the substring from the last dot,
provided that dot is neither the first nor the last character of the name;
otherwise the empty string.  Implemented by splitting the reversed
character list at its first dot. -/
def splitAtFirstDot : List Char → Option (List Char × List Char)
  | [] => none
  | c :: rest =>
    if c = '.' then some ([], rest)
    else
      match splitAtFirstDot rest with
      | none => none
      | some p => some (c :: p.1, p.2)

/-- Python `pathlib` suffix of a file name. -/
def pySuffix (name : String) : String :=
  match splitAtFirstDot name.data.reverse with
  | none => ""
  | some p => if p.1 = [] ∨ p.2 = [] then "" else String.mk ('.' :: p.1.reverse)

/-- Classification of one file inside a candidate directory. -/
inductive FileClass
  | python
  | relevant
  | ignored
deriving DecidableEq

/-- The per-file classification performed in the root-level loop of
`scan_projects` (lines 256-265): lowercased `.py` extension makes a
primary-language file; otherwise a lowercased extension in
`RELEVANT_EXTENSIONS`, a lowercased name equal to an `IMPORTANT_FILES`
entry, or a lowercased name containing an `IMPORTANT_FILES` entry as a
substring makes a relevant file. -/
def classifyFile (name : String) : FileClass :=
  let ext := pyToLower (pySuffix name)
  let lname := pyToLower name
  if ext == ".py" then .python
  else if RELEVANT_EXTENSIONS.contains ext
       || IMPORTANT_FILES.contains lname
       || IMPORTANT_FILES.any (fun imp => strContains imp lname) then .relevant
  else .ignored

/-! ## Candidate-directory file collection (`scan_projects`, lines 241-295)

A collected Python file is represented by the outcome of stat-ing it
(`Except String Int`, the mtime): that is the only attribute the rest of
the pipeline uses.  Relevant files are only ever counted. -/

/-- Decidable equality for exception-modelling values. -/
instance exceptDecEq {ε α : Type} [DecidableEq ε] [DecidableEq α] :
    DecidableEq (Except ε α) := fun a b =>
  match a, b with
  | .ok x, .ok y =>
    if h : x = y then .isTrue (by rw [h]) else .isFalse (by simp [h])
  | .error x, .error y =>
    if h : x = y then .isTrue (by rw [h]) else .isFalse (by simp [h])
  | .ok _, .error _ => .isFalse (by simp)
  | .error _, .ok _ => .isFalse (by simp)

/-- A file inside a first-level subdirectory of a candidate. -/
structure SubFile where
  name : String
  isFile : Bool
  mtimeE : Except String Int
deriving DecidableEq

/-- An immediate child of a candidate directory. -/
structure Child where
  name : String
  isDir : Bool
  isFile : Bool
  mtimeE : Except String Int
  children : List SubFile
deriving DecidableEq

/-- The root-level collection loop (lines 251-270): classify each file,
and break once the combined python + relevant count exceeds 100. -/
def collectRootFiles : List Child → List (Except String Int) → Nat →
    List (Except String Int) × Nat
  | [], pys, rels => (pys, rels)
  | c :: rest, pys, rels =>
    if c.isFile then
      let st :=
        match classifyFile c.name with
        | .python => (pys ++ [c.mtimeE], rels)
        | .relevant => (pys, rels + 1)
        | .ignored => (pys, rels)
      if st.1.length + st.2 > 100 then st
      else collectRootFiles rest st.1 st.2
    else collectRootFiles rest pys rels

/-- The inner loop of the one-level-deeper pass (lines 284-288): collect
`.py` files (exact-case suffix comparison at this level), breaking once
more than 50 python files are held. -/
def collectSubPy : List SubFile → List (Except String Int) →
    List (Except String Int)
  | [], pys => pys
  | f :: rest, pys =>
    if f.isFile && pySuffix f.name == ".py" then
      let pys' := pys ++ [f.mtimeE]
      if pys'.length > 50 then pys'
      else collectSubPy rest pys'
    else collectSubPy rest pys

/-- The outer loop of the one-level-deeper pass (lines 276-291): visit
first-level subdirectories passing the dot/skip-name filters, breaking
once more than 50 python files are held. -/
def collectDeeper : List Child → List (Except String Int) →
    List (Except String Int)
  | [], pys => pys
  | c :: rest, pys =>
    if c.isDir && !(pyStartsWith c.name ".") && !(SKIP_DIRS.contains (pyToLower c.name)) then
      let pys' := collectSubPy c.children pys
      if pys'.length > 50 then pys'
      else collectDeeper rest pys'
    else collectDeeper rest pys

/-- Full file collection for one candidate directory: the root-level scan,
then (when fewer than 20 files were found and time remains, the latter
modelled as always true) one level deeper for python files only. -/
def scanDirFiles (children : List Child) : List (Except String Int) × Nat :=
  let st := collectRootFiles children [] 0
  if st.1.length + st.2 < 20 then (collectDeeper children st.1, st.2)
  else st

/-! ## Record assembly -/

/-- A discovered-project record as appended to the `projects` list by
`scan_projects`.  Keys absent from one of the two record shapes (`path`
inside `venv`, `pythonFiles`, `relevantFiles`, `size`) are modelled as
`Option` fields set to `none` where the Python dictionary has no such
key. -/
structure ProjectRecord where
  name : String
  path : String
  type : String
  venv : VenvStatus
  git : GitStatus
  lastModified : String
  pythonFiles : Option Nat
  relevantFiles : Option Nat
  size : Option Nat
  favorite : Bool
deriving DecidableEq

/-- Sequence a list of stat outcomes, propagating the first raised
exception: Python evaluates every sort key before sorting. -/
def seqExcept : List (Except String Int) → Except String (List Int)
  | [] => .ok []
  | e :: rest =>
    match e with
    | .error s => .error s
    | .ok v =>
      match seqExcept rest with
      | .error s => .error s
      | .ok vs => .ok (v :: vs)

/-- Descending order on integers, used for mtime sorts. -/
def intDescRel : Int → Int → Prop := fun a b => b ≤ a

instance : DecidableRel intDescRel := fun a b => Int.decLe b a

instance : IsTotal Int intDescRel := ⟨fun a b => le_total b a⟩

instance : IsTrans Int intDescRel := ⟨fun _ _ _ h1 h2 => le_trans h2 h1⟩

/-- Maximum of a nonempty list given head and tail. -/
def maxOf (x : Int) (xs : List Int) : Int := xs.foldl max x

/-- Last-modified computation of `analyze_project_fast` (lines 123-128):
the directory's own mtime, or, when python files were found, the maximum
over the (up to) ten most recent of them, each stat fallible. -/
def lastModifiedOf (dirMt : Int) (pyMts : List (Except String Int)) :
    Except String Int :=
  if pyMts.isEmpty then .ok dirMt
  else
    match seqExcept pyMts with
    | .error e => .error e
    | .ok vs =>
      match (List.insertionSort intDescRel vs).take 10 with
      | [] => .ok dirMt
      | r :: rs => .ok (maxOf r rs)

/-- Embedding of `analyze_project_fast` (lines 100-143).  The surrounding
`try` is modelled by returning `none` whenever one of the stat calls
inside raises; `venv`/`git` detection cannot raise. -/
def analyze_project_fast (name path : String) (vw : VenvWorld) (gw : GitWorld)
    (dirMtimeE : Except String Int) (pyMts : List (Except String Int))
    (relCount : Nat) (now : Int) : Option ProjectRecord :=
  match dirMtimeE with
  | .error _ => none
  | .ok dirMt =>
    match lastModifiedOf dirMt pyMts with
    | .error _ => none
    | .ok lm =>
      some { name := name, path := path, type := "folder",
             venv := check_venv_status path vw,
             git := get_git_status gw,
             lastModified := get_relative_time lm now,
             pythonFiles := some pyMts.length,
             relevantFiles := some relCount,
             size := none, favorite := false }

/-! ## The walk (`scan_projects`, lines 188-337) -/

/-- An immediate child of the scan root as observed by the walk: its kind
flags, the outcomes of stat-ing it (mtime and size), the outcome of
listing it when it is a directory, and its git/venv observables. -/
structure Entry where
  name : String
  isDir : Bool
  isFile : Bool
  mtimeE : Except String Int
  sizeE : Except String Nat
  iterE : Except String (List Child)
  venvW : VenvWorld
  gitW : GitWorld
deriving DecidableEq

/-- Whether a stat outcome is a success. -/
def isOkE : Except String Int → Bool
  | .ok _ => true
  | .error _ => false

/-- The value of a successful stat outcome (0 for a raised one). -/
def mtimeVal (e : Entry) : Int :=
  match e.mtimeE with
  | .ok v => v
  | .error _ => 0

/-- Processing of one admitted entry inside the per-item `try` of the walk
(lines 232-327): directory entries passing the dot/skip filters are
classified and assembled (errors while listing, or inside assembly, skip
the entry); standalone entries with the exact suffix `.py` become file
records (a raised stat skips the entry); everything else contributes
nothing. -/
def processItem (rootPath : String) (now : Int) (item : Entry) :
    Option ProjectRecord :=
  if item.isDir && !(pyStartsWith item.name ".") && !(SKIP_DIRS.contains (pyToLower item.name)) then
    match item.iterE with
    | .error _ => none
    | .ok children =>
      if (scanDirFiles children).1.isEmpty then none
      else analyze_project_fast item.name (rootPath ++ "/" ++ item.name)
             item.venvW item.gitW item.mtimeE
             (scanDirFiles children).1 (scanDirFiles children).2 now
  else if item.isFile && pySuffix item.name == ".py" then
    match item.mtimeE, item.sizeE with
    | .ok mt, .ok sz =>
      some { name := item.name, path := rootPath ++ "/" ++ item.name,
             type := "file",
             venv := ⟨false, false, none⟩, git := .noGit,
             lastModified := get_relative_time mt now,
             pythonFiles := none, relevantFiles := none,
             size := some sz, favorite := false }
    | _, _ => none
  else none

/-- Decorate every entry with its mtime sort key, propagating the first
stat exception (Python computes all keys before sorting, raising out of
`list.sort`). -/
def statKeys : List Entry → Except String (List (Int × Entry))
  | [] => .ok []
  | e :: rest =>
    match e.mtimeE with
    | .error s => .error s
    | .ok v =>
      match statKeys rest with
      | .error s => .error s
      | .ok ps => .ok ((v, e) :: ps)

/-- Descending order on mtime-decorated entries. -/
def entryDescRel : Int × Entry → Int × Entry → Prop := fun a b => b.1 ≤ a.1

instance : DecidableRel entryDescRel := fun a b => Int.decLe b.1 a.1

instance : IsTotal (Int × Entry) entryDescRel := ⟨fun a b => le_total b.1 a.1⟩

instance : IsTrans (Int × Entry) entryDescRel := ⟨fun _ _ _ h1 h2 => le_trans h2 h1⟩

/-- Admission control (lines 219-223): with more than `MAX_ITEMS = 50`
children, sort all children descending by mtime (a stable sort, matching
Python's) and keep the first 50; a stat exception during key computation
propagates out of the admission step. -/
def candidatesOf (items : List Entry) : Except String (List Entry) :=
  match statKeys items with
  | .error s => .error s
  | .ok keyed => .ok (((List.insertionSort entryDescRel keyed).map Prod.snd).take 50)

/-- Body of the outer `try` of `scan_projects` given the listed children:
admission control followed by the per-entry loop.  An exception escaping
the admission sort is caught only by the whole-scan handler, which
discards everything and yields `[]`. -/
def scanBody (rootPath : String) (now : Int) (items : List Entry) :
    List ProjectRecord :=
  if items.length > 50 then
    match candidatesOf items with
    | .error _ => []
    | .ok cs => cs.filterMap (processItem rootPath now)
  else items.filterMap (processItem rootPath now)

/-- The scan root as observed by one invocation: whether the root exists,
the outcomes of the two seeding operations (creating `sample_project` and
writing `main.py`), and the outcome of listing the root. -/
structure RootWorld where
  rootExists : Bool
  mkdirE : Except String Unit
  writeE : Except String Unit
  rootPath : String
  iterE : Except String (List Entry)

/-- Embedding of `scan_projects` (lines 188-337).  The first-run seeding
block (lines 202-208) executes before the `try` statement, so a raised
`mkdir` or sample-file write propagates to the caller as `Except.error`;
everything from the root listing on is inside the `try`, whose handler
returns `[]`. -/
def scan_projects (w : RootWorld) (now : Int) :
    Except String (List ProjectRecord) :=
  if w.rootExists then
    .ok (match w.iterE with
         | .error _ => []
         | .ok items => scanBody w.rootPath now items)
  else
    match w.mkdirE with
    | .error e => .error e
    | .ok _ =>
      match w.writeE with
      | .error e => .error e
      | .ok _ =>
        .ok (match w.iterE with
             | .error _ => []
             | .ok items => scanBody w.rootPath now items)

/-! ## The spec's VersionControlStatus (section 3 / 4.4) -/

/-- The discriminated-union payload of the specified VersionControlStatus
when version-control metadata is present. -/
structure VersionControlStatus where
  branch : String
  hasUnstagedChanges : Bool
  hasStagedChanges : Bool
  hasRemote : Bool
  hasCommits : Bool
  needsFix : Bool
  fixReason : Option String
  lastCommit : String
deriving DecidableEq

/-- Modelled from the spec: no function in the sources returns a status
record carrying `hasUnstagedChanges`, `hasStagedChanges`, `hasCommits`,
`needsFix` and `fixReason` (`get_git_status` returns only
`hasGit`/`branch`/`hasChanges`/`hasRemote`/`lastCommit`), so the spec's
version-control status detector for a VCS-tracked directory is modelled
here from sections 3 and 4.4: the staged/unstaged line rules are the
source rules of `GitService.add_files`/`commit_changes`, and `needsFix`
is diagnosed from missing commits or missing remote, absence of commits
checked first — the order in which `GitService.fix_repository`
(src/services/git_service.py, lines 246-256) remediates them. -/
def detectVCS (branch : String) (statusOk : Bool) (statusOut : String)
    (hasRemote hasCommits : Bool) (lastCommit : String) : VersionControlStatus :=
  let hu := if statusOk then hasUnstagedOut statusOut else false
  let hs := if statusOk then hasStagedOut statusOut else false
  { branch := branch,
    hasUnstagedChanges := hu,
    hasStagedChanges := hs,
    hasRemote := hasRemote,
    hasCommits := hasCommits,
    needsFix := !hasCommits || !hasRemote,
    fixReason :=
      if !hasCommits then some "no commits"
      else if !hasRemote then some "no remote"
      else none,
    lastCommit := lastCommit }

/-! ## Supporting lemmas -/

/-- Defining facts of floor division and nonnegative remainder by a
positive divisor, in the linear form `omega` consumes. -/
lemma edm (a b : Int) (hb : 0 < b) :
    a = b * (a.ediv b) + a.emod b ∧ 0 ≤ a.emod b ∧ a.emod b < b :=
  ⟨(Int.ediv_add_emod a b).symm, Int.emod_nonneg a (by omega), Int.emod_lt_of_pos a hb⟩

/-- For representable timestamps `get_relative_time` is the guarded core. -/
lemma get_relative_time_in_range (ts now : Int) (h1 : MIN_TS ≤ ts) (h2 : ts ≤ MAX_TS) :
    get_relative_time ts now = relTimeCore ts now := by
  unfold get_relative_time
  rw [if_neg]
  push_neg
  exact ⟨h1, h2⟩

/-- Date branch of the recency label. -/
lemma relTimeCore_date (ts now : Int) (h : 7 < (now - ts).ediv 86400) :
    relTimeCore ts now = fmtMonthDay ts := by
  simp only [relTimeCore]
  rw [if_pos h]

/-- Days branch of the recency label. -/
lemma relTimeCore_days (ts now : Int) (h0 : 0 < (now - ts).ediv 86400)
    (h7 : (now - ts).ediv 86400 ≤ 7) :
    relTimeCore ts now = toString ((now - ts).ediv 86400) ++ " day" ++
      (if (now - ts).ediv 86400 = 1 then "" else "s") ++ " ago" := by
  simp only [relTimeCore]
  rw [if_neg (by omega), if_pos h0]

/-- Hours branch of the recency label. -/
lemma relTimeCore_hours (ts now : Int) (hd : (now - ts).ediv 86400 ≤ 0)
    (hs : 3600 < (now - ts).emod 86400) :
    relTimeCore ts now = toString (((now - ts).emod 86400).ediv 3600) ++ " hour" ++
      (if ((now - ts).emod 86400).ediv 3600 = 1 then "" else "s") ++ " ago" := by
  simp only [relTimeCore]
  rw [if_neg (by omega), if_neg (by omega), if_pos hs]

/-- Minutes branch of the recency label. -/
lemma relTimeCore_minutes (ts now : Int) (hd : (now - ts).ediv 86400 ≤ 0)
    (hs : (now - ts).emod 86400 ≤ 3600) (hm : 60 < (now - ts).emod 86400) :
    relTimeCore ts now = toString (((now - ts).emod 86400).ediv 60) ++ " minute" ++
      (if ((now - ts).emod 86400).ediv 60 = 1 then "" else "s") ++ " ago" := by
  simp only [relTimeCore]
  rw [if_neg (by omega), if_neg (by omega), if_neg (by omega), if_pos hm]

/-- Just-now branch of the recency label. -/
lemma relTimeCore_justnow (ts now : Int) (hd : (now - ts).ediv 86400 ≤ 0)
    (hs : (now - ts).emod 86400 ≤ 60) :
    relTimeCore ts now = "Just now" := by
  simp only [relTimeCore]
  rw [if_neg (by omega), if_neg (by omega), if_neg (by omega), if_neg (by omega)]

/-- Fields of a record produced by a successful `analyze_project_fast`. -/
lemma analyze_project_fast_fields (name path : String) (vw : VenvWorld) (gw : GitWorld)
    (dmt : Except String Int) (pyMts : List (Except String Int)) (relCount : Nat)
    (now : Int) (r : ProjectRecord)
    (h : analyze_project_fast name path vw gw dmt pyMts relCount now = some r) :
    r.name = name ∧ r.type = "folder" ∧ r.venv.path = some (path ++ "/venv")
    ∧ r.pythonFiles = some pyMts.length ∧ r.relevantFiles = some relCount
    ∧ r.size = none := by
  unfold analyze_project_fast at h
  split at h
  · exact absurd h (by simp)
  · split at h
    · exact absurd h (by simp)
    · rw [Option.some_inj] at h
      subst h
      refine ⟨rfl, rfl, ?_, rfl, rfl, rfl⟩
      simp [check_venv_status]

/-- A record produced by `processItem` carries its entry's name. -/
lemma processItem_name (rootPath : String) (now : Int) (e : Entry) (r : ProjectRecord)
    (h : processItem rootPath now e = some r) : r.name = e.name := by
  unfold processItem at h
  split at h
  · split at h
    · exact absurd h (by simp)
    · split at h
      · exact absurd h (by simp)
      · exact (analyze_project_fast_fields _ _ _ _ _ _ _ _ _ h).1
  · split at h
    · split at h
      · rw [Option.some_inj] at h
        subst h
        rfl
      · exact absurd h (by simp)
    · exact absurd h (by simp)

/-- When every stat succeeds, `statKeys` decorates every entry with its
mtime value. -/
lemma statKeys_ok (items : List Entry)
    (hok : items.all (fun e => isOkE e.mtimeE) = true) :
    statKeys items = .ok (items.map (fun e => (mtimeVal e, e))) := by
  induction items with
  | nil => rfl
  | cons e rest ih =>
    rw [List.all_cons, Bool.and_eq_true] at hok
    obtain ⟨h1, h2⟩ := hok
    unfold statKeys
    cases hm : e.mtimeE with
    | error s => simp [isOkE, hm] at h1
    | ok v =>
      rw [ih h2]
      simp [mtimeVal, hm]

/-- When some stat raises, `statKeys` raises. -/
lemma statKeys_err (items : List Entry)
    (h : items.all (fun e => isOkE e.mtimeE) = false) :
    ∃ s, statKeys items = .error s := by
  induction items with
  | nil => simp at h
  | cons e rest ih =>
    unfold statKeys
    cases hm : e.mtimeE with
    | error s => exact ⟨s, rfl⟩
    | ok v =>
      rw [List.all_cons] at h
      simp only [isOkE, hm, Bool.true_and] at h
      obtain ⟨s, hs⟩ := ih h
      rw [hs]
      exact ⟨s, rfl⟩

/-! ## Concrete worlds used by closed statements -/

/-- A project directory with no venv facts. -/
def vwNone : VenvWorld := ⟨false, false, none, ""⟩

/-- A project directory with no version-control metadata. -/
def gwNone : GitWorld := ⟨false, ⟨true, ""⟩, ⟨true, ""⟩, ⟨true, ""⟩, ⟨true, ""⟩⟩

/-- A git directory whose porcelain status holds a single unmerged
(`UU`) line. -/
def gwConflicted : GitWorld :=
  ⟨true, ⟨true, "main"⟩, ⟨true, "UU conflicted.py"⟩, ⟨true, ""⟩, ⟨true, "abc msg"⟩⟩

/-- A scan root that does not exist and whose sample-directory creation
raises. -/
def wSeedFail : RootWorld :=
  ⟨false, .error "PermissionError", .ok (), "/root/projects", .ok []⟩

/-- A scan root that does not exist and whose sample-file write raises. -/
def wWriteFail : RootWorld :=
  ⟨false, .ok (), .error "OSError", "/root/projects", .ok []⟩

/-- An existing scan root whose listing raises. -/
def wListFail : RootWorld :=
  ⟨true, .ok (), .ok (), "/root/projects", .error "OSError"⟩

/-- A healthy standalone python file at the scan root. -/
def mkGoodFile (i : Nat) : Entry :=
  ⟨"f" ++ toString i ++ ".py", false, true, .ok 1700000000, .ok 10, .ok [], vwNone, gwNone⟩

/-- Fifty healthy standalone python files. -/
def goodFileEntries : List Entry := (List.range 50).map mkGoodFile

/-- A directory entry whose stat raises. -/
def badStatEntry : Entry :=
  ⟨"bad", true, false, .error "stat failed", .ok 0, .ok [], vwNone, gwNone⟩

/-- A scan root holding 51 children, one of which fails to stat. -/
def wBadStat : RootWorld :=
  ⟨true, .ok (), .ok (), "/root/projects", .ok (badStatEntry :: goodFileEntries)⟩

/-- The same scan root without the failing child. -/
def wGoodOnly : RootWorld :=
  ⟨true, .ok (), .ok (), "/root/projects", .ok goodFileEntries⟩

/-- The records the fifty healthy children produce. -/
def goodRecords : List ProjectRecord :=
  goodFileEntries.filterMap (processItem "/root/projects" 1700000000)

/-- Fifty-one stat-able children, for exercising admission control. -/
def capItems : List Entry :=
  (List.range 51).map
    (fun i => ⟨toString i, false, false, .ok (Int.ofNat i), .ok 0, .ok [], vwNone, gwNone⟩)

/-- A concrete standalone python file entry. -/
def pyFileEntry : Entry :=
  ⟨"tool.py", false, true, .ok 1699999000, .ok 123, .ok [], vwNone, gwNone⟩

/-- The spec-modelled status of a repository with neither commits nor
remote. -/
def vcsBoth : VersionControlStatus := detectVCS "main" true "" false false ""

/-! ## Claim theorems -/

/-- C1: the claim states that `scan_projects` is total — it always returns
a list and never raises to its caller, even on the first-run seeding path.
In the code the seeding block (lines 202-208) runs before the `try`
statement (line 210), so a raised sample-directory creation or
sample-file write propagates to the caller: with the root absent and
`mkdir` (resp. the write) raising, `scan_projects` answers `Except.error`,
while a failure to list an existing root is caught and yields the empty
list as the claim describes. -/
theorem scan_projects_seeding_failure :
    scan_projects wSeedFail 0 = .error "PermissionError"
    ∧ scan_projects wWriteFail 0 = .error "OSError"
    ∧ scan_projects wListFail 0 = .ok [] :=
  ⟨rfl, rfl, rfl⟩

/-- C2: for a version-controlled directory the (spec-modelled) status
record carries the `hasUnstagedChanges`, `hasStagedChanges`, `hasCommits`,
`needsFix` and `fixReason` fields; `needsFix` is true exactly when commits
or remote are missing, and the reason is `"no commits"` whenever commits
are absent — absence of commits takes strict priority over absence of
remote and only one reason is ever reported, also when both hold. -/
theorem detectVCS_needsFix_priority (branch : String) (statusOk : Bool)
    (statusOut : String) (hasRemote hasCommits : Bool) (lastCommit : String) :
    (detectVCS branch statusOk statusOut hasRemote hasCommits lastCommit).needsFix
      = (!hasCommits || !hasRemote)
    ∧ (detectVCS branch statusOk statusOut hasRemote hasCommits lastCommit).fixReason
      = (if !hasCommits then some "no commits"
         else if !hasRemote then some "no remote" else none)
    ∧ (detectVCS branch statusOk statusOut hasRemote hasCommits lastCommit).hasUnstagedChanges
      = (if statusOk then hasUnstagedOut statusOut else false)
    ∧ (detectVCS branch statusOk statusOut hasRemote hasCommits lastCommit).hasStagedChanges
      = (if statusOk then hasStagedOut statusOut else false)
    ∧ vcsBoth.needsFix = true
    ∧ vcsBoth.fixReason = some "no commits" :=
  ⟨rfl, rfl, rfl, rfl, rfl, rfl⟩

/-- C3: when the scan root has more than 50 children and every child
stats successfully, admission control keeps exactly 50 candidates, each
drawn from the children, each at least as recently modified as every
excluded child; the walk processes exactly those candidates, and every
returned record names one of them — excluded children never appear,
regardless of kind or content. -/
theorem scan_projects_admission_cap (rootPath : String) (now : Int)
    (items : List Entry) (hlen : items.length > 50)
    (hok : items.all (fun e => isOkE e.mtimeE) = true) :
    ∃ cs, candidatesOf items = .ok cs
      ∧ cs.length = 50
      ∧ (∀ e ∈ cs, e ∈ items)
      ∧ (∀ e ∈ cs, ∀ e' ∈ items, e' ∉ cs → mtimeVal e' ≤ mtimeVal e)
      ∧ scanBody rootPath now items = cs.filterMap (processItem rootPath now)
      ∧ (∀ r ∈ scanBody rootPath now items, ∃ e ∈ cs, r.name = e.name) := by
  have hsk := statKeys_ok items hok
  set keyed := items.map (fun e => (mtimeVal e, e)) with hkeyed
  set sorted := List.insertionSort entryDescRel keyed with hsorted
  have hperm : List.Perm sorted keyed := List.perm_insertionSort entryDescRel keyed
  have hsort : List.Sorted entryDescRel sorted := List.sorted_insertionSort entryDescRel keyed
  set cs := (sorted.map Prod.snd).take 50 with hcs
  have hcand : candidatesOf items = .ok cs := by
    unfold candidatesOf
    rw [hsk]
  have hkey_mem : ∀ p ∈ keyed, p = (mtimeVal p.2, p.2) ∧ p.2 ∈ items := by
    intro p hp
    rw [hkeyed, List.mem_map] at hp
    obtain ⟨a, ha, rfl⟩ := hp
    exact ⟨rfl, ha⟩
  have hlen_sorted : sorted.length = items.length := by
    rw [hperm.length_eq, hkeyed, List.length_map]
  have hcs_mem : ∀ e ∈ cs, ∃ p ∈ sorted.take 50, p.2 = e := by
    intro e he
    rw [hcs, ← List.map_take, List.mem_map] at he
    obtain ⟨p, hp, rfl⟩ := he
    exact ⟨p, hp, rfl⟩
  refine ⟨cs, hcand, ?_, ?_, ?_, ?_, ?_⟩
  · rw [hcs, List.length_take, List.length_map, hlen_sorted]
    omega
  · intro e he
    obtain ⟨p, hp, rfl⟩ := hcs_mem e he
    have hp' : p ∈ sorted := List.take_subset _ _ hp
    exact (hkey_mem p (hperm.mem_iff.mp hp')).2
  · intro e he e' he' hne
    obtain ⟨p, hp, rfl⟩ := hcs_mem e he
    have hp_keyed : p ∈ keyed := hperm.mem_iff.mp (List.take_subset _ _ hp)
    have hp_eq := (hkey_mem p hp_keyed).1
    have hp'_keyed : (mtimeVal e', e') ∈ keyed := by
      rw [hkeyed, List.mem_map]
      exact ⟨e', he', rfl⟩
    have hp'_sorted : (mtimeVal e', e') ∈ sorted := hperm.mem_iff.mpr hp'_keyed
    rw [← List.take_append_drop 50 sorted, List.mem_append] at hp'_sorted
    rcases hp'_sorted with htake | hdrop
    · exfalso
      apply hne
      rw [hcs, ← List.map_take, List.mem_map]
      exact ⟨(mtimeVal e', e'), htake, rfl⟩
    · have hpw := hsort
      rw [List.Sorted, ← List.take_append_drop 50 sorted, List.pairwise_append] at hpw
      have hrel := hpw.2.2 p hp (mtimeVal e', e') hdrop
      unfold entryDescRel at hrel
      calc mtimeVal e' ≤ p.1 := hrel
        _ = mtimeVal p.2 := by rw [hp_eq]
  · unfold scanBody
    rw [if_pos hlen, hcand]
  · intro r hr
    unfold scanBody at hr
    rw [if_pos hlen, hcand] at hr
    rw [List.mem_filterMap] at hr
    obtain ⟨e, he, hpe⟩ := hr
    exact ⟨e, he, processItem_name rootPath now e r hpe⟩

/-- C3 witness: admission control on 51 concrete children. -/
theorem scan_projects_admission_cap_witness :
    capItems.length > 50
    ∧ capItems.all (fun e => isOkE e.mtimeE) = true
    ∧ (∃ cs, candidatesOf capItems = .ok cs
        ∧ cs.length = 50
        ∧ (∀ e ∈ cs, e ∈ capItems)
        ∧ (∀ e ∈ cs, ∀ e' ∈ capItems, e' ∉ cs → mtimeVal e' ≤ mtimeVal e)
        ∧ scanBody "/root/projects" 0 capItems
            = cs.filterMap (processItem "/root/projects" 0)
        ∧ (∀ r ∈ scanBody "/root/projects" 0 capItems, ∃ e ∈ cs, r.name = e.name)) :=
  ⟨by decide, by decide,
   scan_projects_admission_cap "/root/projects" 0 capItems (by decide) (by decide)⟩

/-- C4 counterexample: the claim states that an exception while processing
one candidate — explicitly including a failed stat on a single child
during the admission-control sort — skips only that entry and never
empties the result of the others.  With 51 children of which one fails to
stat, the sort raises into the whole-scan handler and the scan returns the
empty list, although the remaining 50 children alone produce 50 records. -/
theorem scan_projects_sort_stat_counterexample :
    scan_projects wBadStat 1700000000 = .ok []
    ∧ scan_projects wGoodOnly 1700000000 = .ok goodRecords
    ∧ goodRecords.length = 50 := by
  refine ⟨by decide, rfl, by decide⟩

/-- C4 amended: an exception while processing one candidate inside the
per-entry loop is caught there and skips only that entry — the walk
continues and the other entries' records are kept (in particular a
directory whose listing raises contributes nothing); but a failed stat on
a single child during the admission-control sort (more than 50 children)
is caught only by the whole-scan handler, which discards all entries and
returns the empty list. -/
theorem scan_projects_entry_isolation_amended (rootPath : String) (now : Int)
    (xs ys : List Entry) (bad : Entry)
    (hbad : processItem rootPath now bad = none) :
    ((xs ++ bad :: ys).filterMap (processItem rootPath now)
       = xs.filterMap (processItem rootPath now) ++ ys.filterMap (processItem rootPath now))
    ∧ (∀ (e : Entry) (msg : String),
        (e.isDir && !(pyStartsWith e.name ".") && !(SKIP_DIRS.contains (pyToLower e.name))) = true →
        e.iterE = .error msg → processItem rootPath now e = none)
    ∧ (∀ items : List Entry, items.length > 50 →
        items.all (fun e => isOkE e.mtimeE) = false →
        scanBody rootPath now items = []) := by
  refine ⟨?_, ?_, ?_⟩
  · rw [List.filterMap_append, List.filterMap_cons_none hbad]
  · intro e msg hcond hiter
    unfold processItem
    rw [if_pos hcond, hiter]
  · intro items hlen hbadall
    obtain ⟨s, hs⟩ := statKeys_err items hbadall
    unfold scanBody
    rw [if_pos hlen]
    unfold candidatesOf
    rw [hs]

/-- C4 amended witness: isolation around one concrete skipped entry. -/
theorem scan_projects_entry_isolation_amended_witness :
    processItem "/root/projects" 1700000000 badStatEntry = none
    ∧ ((([mkGoodFile 0] ++ badStatEntry :: []).filterMap
          (processItem "/root/projects" 1700000000)
        = [mkGoodFile 0].filterMap (processItem "/root/projects" 1700000000)
          ++ ([] : List Entry).filterMap (processItem "/root/projects" 1700000000))
      ∧ (∀ (e : Entry) (msg : String),
          (e.isDir && !(pyStartsWith e.name ".") && !(SKIP_DIRS.contains (pyToLower e.name))) = true →
          e.iterE = .error msg → processItem "/root/projects" 1700000000 e = none)
      ∧ (∀ items : List Entry, items.length > 50 →
          items.all (fun e => isOkE e.mtimeE) = false →
          scanBody "/root/projects" 1700000000 items = [])) :=
  ⟨by decide,
   scan_projects_entry_isolation_amended "/root/projects" 1700000000
     [mkGoodFile 0] [] badStatEntry (by decide)⟩

/-- C5 counterexample: the claim states that `hasChanges` is true iff some
porcelain line is evidence of staged or unstaged changes, not merely iff
the output is non-empty.  For a repository whose porcelain output is the
single unmerged line `"UU conflicted.py"`, `get_git_status` reports
`hasChanges = true` although the line is evidence of neither staged nor
unstaged changes under the status-line parsing rules. -/
theorem get_git_status_hasChanges_counterexample :
    gitHasChanges (get_git_status gwConflicted) = true
    ∧ hasUnstagedOut gwConflicted.statusCmd.stdout = false
    ∧ hasStagedOut gwConflicted.statusCmd.stdout = false
    ∧ (hasUnstagedOut gwConflicted.statusCmd.stdout
        || hasStagedOut gwConflicted.statusCmd.stdout) = false :=
  ⟨rfl, by decide, by decide, by decide⟩

/-- C5 amended: when the porcelain query succeeds, `hasChanges` is true
iff the (stripped) porcelain output is non-empty; consequently it is true
whenever some line is evidence of staged or unstaged changes under the
parsing rules, but the converse fails for outputs whose lines are
evidence of neither (for example unmerged `UU` lines). -/
theorem get_git_status_hasChanges_amended (w : GitWorld)
    (hgit : w.dotGitExists = true) (hok : w.statusCmd.success = true) :
    gitHasChanges (get_git_status w) = (w.statusCmd.stdout != "")
    ∧ ((hasUnstagedOut w.statusCmd.stdout || hasStagedOut w.statusCmd.stdout) = true →
        gitHasChanges (get_git_status w) = true) := by
  have h1 : gitHasChanges (get_git_status w) = (w.statusCmd.stdout != "") := by
    simp only [get_git_status, hgit, hok, if_pos, if_true]
    rfl
  refine ⟨h1, fun h => ?_⟩
  rw [h1]
  by_cases hs : w.statusCmd.stdout = ""
  · rw [hs] at h
    simp [hasUnstagedOut, hasStagedOut] at h
  · simp [bne_iff_ne, hs]

/-- C5 amended witness: the amended characterisation at the unmerged-line
repository. -/
theorem get_git_status_hasChanges_amended_witness :
    gwConflicted.dotGitExists = true
    ∧ gwConflicted.statusCmd.success = true
    ∧ (gitHasChanges (get_git_status gwConflicted) = (gwConflicted.statusCmd.stdout != "")
      ∧ ((hasUnstagedOut gwConflicted.statusCmd.stdout
           || hasStagedOut gwConflicted.statusCmd.stdout) = true →
          gitHasChanges (get_git_status gwConflicted) = true)) :=
  ⟨rfl, rfl, get_git_status_hasChanges_amended gwConflicted rfl rfl⟩

/-- C6: a porcelain status line of at least two characters is evidence of
staged changes iff its first character is one of A, M, D, R, C, and
evidence of unstaged changes iff its second character is M or D or the
line begins with "??"; in particular `"M "` is staged-only, `" M"` is
unstaged-only, and `"??"` is unstaged-only. -/
theorem porcelain_line_classification :
    (∀ (c0 c1 : Char) (rest : List Char),
      (lineStaged (String.mk (c0 :: c1 :: rest)) = true ↔
        (c0 = 'A' ∨ c0 = 'M' ∨ c0 = 'D' ∨ c0 = 'R' ∨ c0 = 'C'))
      ∧ (lineUnstaged (String.mk (c0 :: c1 :: rest)) = true ↔
        (c1 = 'M' ∨ c1 = 'D' ∨ (c0 = '?' ∧ c1 = '?'))))
    ∧ lineStaged "M " = true ∧ lineUnstaged "M " = false
    ∧ lineStaged " M" = false ∧ lineUnstaged " M" = true
    ∧ lineStaged "??" = false ∧ lineUnstaged "??" = true := by
  refine ⟨fun c0 c1 rest => ⟨?_, ?_⟩,
          by decide, by decide, by decide, by decide, by decide, by decide⟩
  · show (['A', 'M', 'D', 'R', 'C'].contains c0 = true) ↔ _
    simp [List.contains, List.elem_cons, beq_iff_eq]
  · show ((prefixB "??".data (c0 :: c1 :: rest) ||
            ['M', 'D'].contains c1) = true) ↔ _
    have hqq : "??".data = ['?', '?'] := rfl
    rw [hqq]
    simp [prefixB, List.contains, List.elem_cons, beq_iff_eq, Bool.or_eq_true,
          Bool.and_eq_true]
    tauto

/-- C7: the claim states that name matching against the important-file
table is case-insensitive, so that a root-level file named README (any
letter case, no extension) is counted as a relevant file.  The code
lowercases the file name but compares it against the mixed-case
`IMPORTANT_FILES` table, so `"readme"` matches neither `"README"` by
equality nor as a substring: a README file in any case is classified as
ignored and contributes to neither count, while lowercase table entries
such as `"makefile"` or `"requirements.txt"` do match. -/
theorem classifyFile_readme_ignored :
    classifyFile "README" = FileClass.ignored
    ∧ classifyFile "readme" = FileClass.ignored
    ∧ classifyFile "Readme" = FileClass.ignored
    ∧ classifyFile "ReadMe" = FileClass.ignored
    ∧ scanDirFiles [⟨"README", false, true, .ok 0, []⟩] = ([], 0)
    ∧ classifyFile "makefile" = FileClass.relevant
    ∧ classifyFile "requirements.txt" = FileClass.relevant := by
  refine ⟨by decide, by decide, by decide, by decide, by decide, by decide, by decide⟩

/-- C8: for a representable timestamp the recency label is the
abbreviated month-and-day date when the whole-day difference exceeds 7,
"N day(s) ago" (singular for 1) for 1 to 7 whole days, "N hour(s) ago"
when the residual seconds exceed 3600, "N minute(s) ago" when they exceed
60, and "Just now" otherwise; "Unknown" is answered when the conversion
fails, and concretely 3 days back gives "3 days ago", 1 day back "1 day
ago", 90 minutes back "1 hour ago", and 10 days back a date string. -/
theorem get_relative_time_labels (ts now : Int)
    (h1 : MIN_TS ≤ ts) (h2 : ts ≤ MAX_TS) :
    (7 < (now - ts).ediv 86400 → get_relative_time ts now = fmtMonthDay ts)
    ∧ (0 < (now - ts).ediv 86400 → (now - ts).ediv 86400 ≤ 7 →
        get_relative_time ts now = toString ((now - ts).ediv 86400) ++ " day" ++
          (if (now - ts).ediv 86400 = 1 then "" else "s") ++ " ago")
    ∧ ((now - ts).ediv 86400 = 0 → 3600 < (now - ts).emod 86400 →
        get_relative_time ts now = toString (((now - ts).emod 86400).ediv 3600) ++ " hour" ++
          (if ((now - ts).emod 86400).ediv 3600 = 1 then "" else "s") ++ " ago")
    ∧ ((now - ts).ediv 86400 = 0 → (now - ts).emod 86400 ≤ 3600 →
        60 < (now - ts).emod 86400 →
        get_relative_time ts now = toString (((now - ts).emod 86400).ediv 60) ++ " minute" ++
          (if ((now - ts).emod 86400).ediv 60 = 1 then "" else "s") ++ " ago")
    ∧ ((now - ts).ediv 86400 = 0 → (now - ts).emod 86400 ≤ 60 →
        get_relative_time ts now = "Just now")
    ∧ get_relative_time (1700000000 - 259200) 1700000000 = "3 days ago"
    ∧ get_relative_time (1700000000 - 86400) 1700000000 = "1 day ago"
    ∧ get_relative_time (1700000000 - 5400) 1700000000 = "1 hour ago"
    ∧ get_relative_time (1700000000 - 864000) 1700000000 = "Nov 04"
    ∧ get_relative_time (MAX_TS + 1) 1700000000 = "Unknown"
    ∧ get_relative_time (MIN_TS - 1) 1700000000 = "Unknown" := by
  rw [get_relative_time_in_range ts now h1 h2]
  refine ⟨fun h => relTimeCore_date ts now h,
          fun p q => relTimeCore_days ts now p q,
          fun p q => relTimeCore_hours ts now (by omega) q,
          fun p q r => relTimeCore_minutes ts now (by omega) q r,
          fun p q => relTimeCore_justnow ts now (by omega) q,
          by decide, by decide, by decide, by decide, by decide, by decide⟩

/-- C8 witness: the label characterisation at a concrete timestamp three
days in the past. -/
theorem get_relative_time_labels_witness :
    MIN_TS ≤ 1699740800
    ∧ (1699740800 : Int) ≤ MAX_TS
    ∧ ((7 < ((1700000000 : Int) - 1699740800).ediv 86400 →
          get_relative_time 1699740800 1700000000 = fmtMonthDay 1699740800)
      ∧ (0 < ((1700000000 : Int) - 1699740800).ediv 86400 →
          ((1700000000 : Int) - 1699740800).ediv 86400 ≤ 7 →
          get_relative_time 1699740800 1700000000
            = toString (((1700000000 : Int) - 1699740800).ediv 86400) ++ " day" ++
              (if ((1700000000 : Int) - 1699740800).ediv 86400 = 1 then "" else "s") ++ " ago")
      ∧ (((1700000000 : Int) - 1699740800).ediv 86400 = 0 →
          3600 < ((1700000000 : Int) - 1699740800).emod 86400 →
          get_relative_time 1699740800 1700000000
            = toString ((((1700000000 : Int) - 1699740800).emod 86400).ediv 3600) ++ " hour" ++
              (if (((1700000000 : Int) - 1699740800).emod 86400).ediv 3600 = 1 then "" else "s") ++ " ago")
      ∧ (((1700000000 : Int) - 1699740800).ediv 86400 = 0 →
          ((1700000000 : Int) - 1699740800).emod 86400 ≤ 3600 →
          60 < ((1700000000 : Int) - 1699740800).emod 86400 →
          get_relative_time 1699740800 1700000000
            = toString ((((1700000000 : Int) - 1699740800).emod 86400).ediv 60) ++ " minute" ++
              (if (((1700000000 : Int) - 1699740800).emod 86400).ediv 60 = 1 then "" else "s") ++ " ago")
      ∧ (((1700000000 : Int) - 1699740800).ediv 86400 = 0 →
          ((1700000000 : Int) - 1699740800).emod 86400 ≤ 60 →
          get_relative_time 1699740800 1700000000 = "Just now")
      ∧ get_relative_time (1700000000 - 259200) 1700000000 = "3 days ago"
      ∧ get_relative_time (1700000000 - 86400) 1700000000 = "1 day ago"
      ∧ get_relative_time (1700000000 - 5400) 1700000000 = "1 hour ago"
      ∧ get_relative_time (1700000000 - 864000) 1700000000 = "Nov 04"
      ∧ get_relative_time (MAX_TS + 1) 1700000000 = "Unknown"
      ∧ get_relative_time (MIN_TS - 1) 1700000000 = "Unknown") :=
  ⟨by decide, by decide,
   get_relative_time_labels 1699740800 1700000000 (by decide) (by decide)⟩

/-- C9: a representable timestamp strictly in the future of now by less
than 23 hours never yields "Just now" or "Unknown": the negative
difference normalises to minus one day with a large positive seconds
residue, and in particular a timestamp 30 seconds ahead of now yields
"23 hours ago". -/
theorem get_relative_time_future_hours (ts now : Int)
    (h1 : MIN_TS ≤ ts) (h2 : ts ≤ MAX_TS)
    (hfut : now < ts) (hlt : ts - now < 82800) :
    get_relative_time ts now ≠ "Just now"
    ∧ get_relative_time ts now ≠ "Unknown"
    ∧ get_relative_time 1700000030 1700000000 = "23 hours ago" := by
  have e1 := edm (now - ts) 86400 (by omega)
  have hd : (now - ts).ediv 86400 ≤ 0 := by omega
  have hs : 3600 < (now - ts).emod 86400 := by omega
  rw [get_relative_time_in_range ts now h1 h2, relTimeCore_hours ts now hd hs]
  have e2 := edm ((now - ts).emod 86400) 3600 (by omega)
  have hb1 : 1 ≤ ((now - ts).emod 86400).ediv 3600 := by omega
  have hb2 : ((now - ts).emod 86400).ediv 3600 ≤ 23 := by omega
  set n : Int := ((now - ts).emod 86400).ediv 3600 with hn
  clear_value n
  refine ⟨?_, ?_, by decide⟩
  · interval_cases n <;> decide
  · interval_cases n <;> decide

/-- C9 witness: a timestamp ten seconds in the future of a concrete now. -/
theorem get_relative_time_future_hours_witness :
    MIN_TS ≤ 1700000010
    ∧ (1700000010 : Int) ≤ MAX_TS
    ∧ (1700000000 : Int) < 1700000010
    ∧ (1700000010 : Int) - 1700000000 < 82800
    ∧ (get_relative_time 1700000010 1700000000 ≠ "Just now"
      ∧ get_relative_time 1700000010 1700000000 ≠ "Unknown"
      ∧ get_relative_time 1700000030 1700000000 = "23 hours ago") :=
  ⟨by decide, by decide, by decide, by decide,
   get_relative_time_future_hours 1700000010 1700000000
     (by decide) (by decide) (by decide) (by decide)⟩

/-- C10: a standalone primary-language file admitted as a candidate
produces a record of kind "file" whose size equals the file's byte size,
whose environment placeholder is exactly exists-false/active-false with no
path key, and which carries neither a primary-file nor a relevant-file
count; every record of kind "folder", by contrast, carries an environment
path, a primary-file count, a relevant-file count, and no size. -/
theorem standalone_file_record_shape (item : Entry) (rootPath : String)
    (now : Int) (mt : Int) (sz : Nat)
    (hdir : item.isDir = false) (hfile : item.isFile = true)
    (hsuf : pySuffix item.name = ".py")
    (hmt : item.mtimeE = .ok mt) (hsz : item.sizeE = .ok sz) :
    processItem rootPath now item = some
      { name := item.name, path := rootPath ++ "/" ++ item.name, type := "file",
        venv := ⟨false, false, none⟩, git := .noGit,
        lastModified := get_relative_time mt now,
        pythonFiles := none, relevantFiles := none, size := some sz, favorite := false }
    ∧ (∀ (d : Entry) (r : ProjectRecord), processItem rootPath now d = some r →
        r.type = "folder" →
        (∃ p, r.venv.path = some p) ∧ (∃ n, r.pythonFiles = some n)
        ∧ (∃ k, r.relevantFiles = some k) ∧ r.size = none) := by
  constructor
  · simp [processItem, hdir, hfile, hsuf, hmt, hsz]
  · intro d r hpd htype
    unfold processItem at hpd
    split at hpd
    · split at hpd
      · exact absurd hpd (by simp)
      · split at hpd
        · exact absurd hpd (by simp)
        · obtain ⟨-, -, hvp, hpf, hrf, hsz2⟩ :=
            analyze_project_fast_fields _ _ _ _ _ _ _ _ _ hpd
          exact ⟨⟨_, hvp⟩, ⟨_, hpf⟩, ⟨_, hrf⟩, hsz2⟩
    · split at hpd
      · split at hpd
        · rw [Option.some_inj] at hpd
          subst hpd
          simp at htype
        · exact absurd hpd (by simp)
      · exact absurd hpd (by simp)

/-- C10 witness: the record shapes at a concrete standalone file. -/
theorem standalone_file_record_shape_witness :
    pyFileEntry.isDir = false
    ∧ pyFileEntry.isFile = true
    ∧ pySuffix pyFileEntry.name = ".py"
    ∧ pyFileEntry.mtimeE = .ok 1699999000
    ∧ pyFileEntry.sizeE = .ok 123
    ∧ (processItem "/root/projects" 1700000000 pyFileEntry = some
        { name := pyFileEntry.name, path := "/root/projects" ++ "/" ++ pyFileEntry.name,
          type := "file",
          venv := ⟨false, false, none⟩, git := .noGit,
          lastModified := get_relative_time 1699999000 1700000000,
          pythonFiles := none, relevantFiles := none, size := some 123, favorite := false }
      ∧ (∀ (d : Entry) (r : ProjectRecord),
          processItem "/root/projects" 1700000000 d = some r →
          r.type = "folder" →
          (∃ p, r.venv.path = some p) ∧ (∃ n, r.pythonFiles = some n)
          ∧ (∃ k, r.relevantFiles = some k) ∧ r.size = none)) :=
  ⟨rfl, rfl, by decide, rfl, rfl,
   standalone_file_record_shape pyFileEntry "/root/projects" 1700000000 1699999000 123
     rfl rfl (by decide) rfl rfl⟩

end Dashboard
